import Mathlib

/-!
Verification of the resume-search / ATS-scoring HTTP service.

This file gives a shallow embedding, in Lean 4, of the pure control and
data logic of the service (app/services/ats_scorer.py,
app/services/resume_extractor.py, app/services/resume_service.py,
app/controllers/resume_controller.py, app/controllers/ats_controller.py)
and proves properties of that logic.

Modelling conventions:
* Python `str` is modelled by `String`; character-level operations
  (`upper`, `lower`, `strip`, slicing) are modelled on `String.data`
  (`List Char`), matching Python semantics on ASCII text.
* Python dicts (all JSON-shaped data in this service) are modelled as
  insertion-ordered association lists `List (String × Json)`; item
  assignment `d[k] = v` is `dictSet` (replace in place, else append),
  matching CPython dict semantics.
* External effects (HTTP fetches, the LLM client, the vector index) are
  modelled as function parameters ("oracles"): e.g. the result of the
  LLM scoring call is an `Except String String` (exception message or
  response text).  A computation whose result does not depend on an
  oracle provably never invokes the corresponding external service.
* `json.loads` is modelled by the executable parser `jsonLoads` below
  (objects, arrays, strings with the standard single-character escapes,
  integer numerals, booleans, null; a faithful model of the library
  behaviour on the data this service handles).
* Python exceptions are modelled by `Except`/`Option`; functions whose
  Python counterpart catches all exceptions are total Lean functions.
-/

/-! ## Generic string helpers (models of Python str operations) -/

/-- Model of Python's `needle in hay` substring test, on char lists. -/
def subAt (needle : List Char) : List Char → Bool
  | [] => needle.isEmpty
  | c :: rest => needle.isPrefixOf (c :: rest) || subAt needle rest

/-- Model of Python's `needle in hay` substring test on strings. -/
def containsSub (needle hay : String) : Bool :=
  subAt needle.data hay.data

/-- Model of Python `str.upper()` (ASCII). -/
def toUpperStr (s : String) : String := ⟨s.data.map Char.toUpper⟩

/-- Model of Python `str.lower()` (ASCII). -/
def toLowerStr (s : String) : String := ⟨s.data.map Char.toLower⟩

/-- Model of Python `str.endswith(suffix)`. -/
def endsWithStr (suffix s : String) : Bool :=
  (suffix.data.reverse).isPrefixOf (s.data.reverse)

/-- Model of Python `str.strip()`: remove leading and trailing whitespace. -/
def pyStrip (s : String) : String :=
  ⟨((s.data.dropWhile Char.isWhitespace).reverse.dropWhile Char.isWhitespace).reverse⟩

/-- Model of Python `str.join` on a separator, as used by `', '.join(...)`. -/
def joinStr (sep : String) : List String → String
  | [] => ""
  | [x] => x
  | x :: y :: rest => x ++ sep ++ joinStr sep (y :: rest)

/-- Model of Python slicing `s[:n]`. -/
def takeStr (s : String) (n : Nat) : String := ⟨s.data.take n⟩

/-- Value of a decimal digit run, as Python `int(...)` of a `\d+` match. -/
def digitsToNat (l : List Char) : Nat :=
  l.foldl (fun acc c => acc * 10 + (c.toNat - '0'.toNat)) 0

/-! ## JSON values and Python-dict operations -/

/-- JSON values, as produced by `json.loads`. -/
inductive Json where
  | null
  | bool (b : Bool)
  | num (n : Int)
  | str (s : String)
  | arr (xs : List Json)
  | obj (kvs : List (String × Json))

/-- Python dict item assignment `d[k] = v`: replace the value in place if
the key is present (keeping its position), else append the pair. -/
def dictSet (kvs : List (String × Json)) (k : String) (v : Json) : List (String × Json) :=
  if kvs.any (fun p => p.1 == k) then
    kvs.map (fun p => if p.1 == k then (k, v) else p)
  else kvs ++ [(k, v)]

/-- Python `d.get(k, default)` on a dict. -/
def jGetD (kvs : List (String × Json)) (k : String) (d : Json) : Json :=
  (kvs.lookup k).getD d

/-- Field access on a JSON object value. -/
def jGet (v : Json) (k : String) : Option Json :=
  match v with
  | .obj kvs => kvs.lookup k
  | _ => none

/-- Python truthiness of a JSON value (`bool(v)`). -/
def jTruthy : Json → Bool
  | .null => false
  | .bool b => b
  | .num n => n != 0
  | .str s => !s.isEmpty
  | .arr xs => !xs.isEmpty
  | .obj kvs => !kvs.isEmpty

/-- Python `a or b` on JSON values: `a` if truthy, else `b`. -/
def jOr (a b : Json) : Json := if jTruthy a then a else b

/-- The string payload of a JSON value (used where the Python code passes a
metadata value that is a string onward to another call). -/
def jStr : Json → String
  | .str s => s
  | _ => ""

/-! ## A model of `json.loads`

An executable recursive-descent JSON parser on `List Char`, structurally
recursive on an explicit fuel argument (any fuel larger than the input
length is enough).  It covers the JSON forms this service produces and
consumes: objects, arrays, strings with single-character escapes, integer
numerals, `true`, `false`, `null`.  Duplicate keys in an object keep the
last value at the first position, as CPython's `json.loads` does. -/

/-- Skip JSON whitespace (space, tab, newline, carriage return). -/
def skipWs : List Char → List Char
  | [] => []
  | c :: rest =>
    if c = ' ' ∨ c = '\t' ∨ c = '\n' ∨ c = '\r' then skipWs rest else c :: rest

/-- Decode a single-character JSON string escape. -/
def escChar (c : Char) : Option Char :=
  if c = '"' then some '"'
  else if c = '\\' then some '\\'
  else if c = '/' then some '/'
  else if c = 'b' then some (Char.ofNat 8)
  else if c = 'f' then some (Char.ofNat 12)
  else if c = 'n' then some '\n'
  else if c = 'r' then some '\r'
  else if c = 't' then some '\t'
  else none

/-- Parse the body of a JSON string literal (after the opening quote),
returning the decoded characters and the remaining input. -/
def parseStrBody : List Char → Option (List Char × List Char)
  | [] => none
  | '"' :: rest => some ([], rest)
  | '\\' :: e :: rest =>
    match escChar e with
    | some c => (parseStrBody rest).map (fun p => (c :: p.1, p.2))
    | none => none
  | c :: rest => (parseStrBody rest).map (fun p => (c :: p.1, p.2))

/-- Parse an integer numeral (optional minus sign, then digits); fails when
the numeral continues as a float/exponent, which this model does not cover. -/
def parseIntLit (cs : List Char) : Option (Int × List Char) :=
  let (neg, cs') := match cs with
    | '-' :: rest => (true, rest)
    | _ => (false, cs)
  let digits := cs'.takeWhile Char.isDigit
  let rest := cs'.dropWhile Char.isDigit
  if digits.isEmpty then none
  else match rest with
    | '.' :: _ => none
    | 'e' :: _ => none
    | 'E' :: _ => none
    | _ =>
      let n : Int := digitsToNat digits
      some (if neg then -n else n, rest)

mutual

/-- Parse one JSON value. -/
def parseVal : Nat → List Char → Option (Json × List Char)
  | 0, _ => none
  | fuel + 1, cs =>
    match skipWs cs with
    | [] => none
    | '{' :: rest =>
      match skipWs rest with
      | '}' :: rest2 => some (.obj [], rest2)
      | rest2 => (parseMembers fuel rest2 []).map (fun p => (.obj p.1, p.2))
    | '[' :: rest =>
      match skipWs rest with
      | ']' :: rest2 => some (.arr [], rest2)
      | rest2 => (parseElems fuel rest2 []).map (fun p => (.arr p.1, p.2))
    | '"' :: rest => (parseStrBody rest).map (fun p => (.str ⟨p.1⟩, p.2))
    | c :: rest =>
      if "true".data.isPrefixOf (c :: rest) then some (.bool true, (c :: rest).drop 4)
      else if "false".data.isPrefixOf (c :: rest) then some (.bool false, (c :: rest).drop 5)
      else if "null".data.isPrefixOf (c :: rest) then some (.null, (c :: rest).drop 4)
      else (parseIntLit (c :: rest)).map (fun p => (.num p.1, p.2))

/-- Parse the members of a JSON object (after any `{` and leading brace
handling), accumulating key/value pairs with last-key-wins semantics. -/
def parseMembers : Nat → List Char → List (String × Json) →
    Option (List (String × Json) × List Char)
  | 0, _, _ => none
  | fuel + 1, cs, acc =>
    match skipWs cs with
    | '"' :: rest =>
      match parseStrBody rest with
      | none => none
      | some (key, rest2) =>
        match skipWs rest2 with
        | ':' :: rest3 =>
          match parseVal fuel rest3 with
          | none => none
          | some (v, rest4) =>
            let acc2 := dictSet acc ⟨key⟩ v
            match skipWs rest4 with
            | ',' :: rest5 => parseMembers fuel rest5 acc2
            | '}' :: rest5 => some (acc2, rest5)
            | _ => none
        | _ => none
    | _ => none

/-- Parse the elements of a JSON array. -/
def parseElems : Nat → List Char → List Json → Option (List Json × List Char)
  | 0, _, _ => none
  | fuel + 1, cs, acc =>
    match parseVal fuel cs with
    | none => none
    | some (v, rest) =>
      match skipWs rest with
      | ',' :: rest2 => parseElems fuel rest2 (acc ++ [v])
      | ']' :: rest2 => some (acc ++ [v], rest2)
      | _ => none

end

/-- Model of `json.loads`: parse a complete JSON document (trailing
whitespace allowed, nothing else), or fail. -/
def jsonLoads (s : String) : Option Json :=
  match parseVal (s.data.length + 2) s.data with
  | some (v, rest) => if (skipWs rest).isEmpty then some v else none
  | none => none

/-! ## resume_extractor.py -/

/-- The fixed skills keyword list of `extract_skills`
(resume_extractor.py, `common_skills`), in source order. -/
def common_skills : List String :=
  ["Python", "Java", "JavaScript", "C++", "C#", "Ruby", "PHP", "Swift", "Kotlin", "Go",
   "React", "Angular", "Vue", "Node.js", "Express", "Django", "Flask", "FastAPI", "Spring",
   "SQL", "MySQL", "PostgreSQL", "MongoDB", "Redis", "Oracle", "NoSQL",
   "AWS", "Azure", "GCP", "Docker", "Kubernetes", "Jenkins", "CI/CD",
   "Git", "GitHub", "GitLab", "Bitbucket",
   "Machine Learning", "Deep Learning", "AI", "NLP", "Computer Vision",
   "TensorFlow", "PyTorch", "Scikit-learn", "Pandas", "NumPy",
   "REST API", "GraphQL", "Microservices", "Agile", "Scrum",
   "HTML", "CSS", "Bootstrap", "Tailwind", "SASS",
   "TypeScript", "jQuery", "Redux", "Next.js",
   "Linux", "Unix", "Windows", "macOS"]

/-- `extract_skills` (resume_extractor.py): keep the keywords whose
upper-cased form is a substring of the upper-cased text, in list order,
capped at 15, joined with `", "`. -/
def extract_skills (text : String) : String :=
  let found_skills :=
    common_skills.filter (fun skill => containsSub (toUpperStr skill) (toUpperStr text))
  joinStr ", " (found_skills.take 15)

/-- Hex digit value, as `urllib.parse.unquote` uses for `%XX` escapes. -/
def hexVal (c : Char) : Option Nat :=
  if '0' ≤ c ∧ c ≤ '9' then some (c.toNat - '0'.toNat)
  else if 'a' ≤ c ∧ c ≤ 'f' then some (c.toNat - 'a'.toNat + 10)
  else if 'A' ≤ c ∧ c ≤ 'F' then some (c.toNat - 'A'.toNat + 10)
  else none

/-- Model of `urllib.parse.unquote` on char lists: decode each valid `%XX`
escape to the character with that code, leave invalid escapes untouched. -/
def unquoteAux : List Char → List Char
  | [] => []
  | '%' :: h1 :: h2 :: rest =>
    match hexVal h1, hexVal h2 with
    | some a, some b => Char.ofNat (16 * a + b) :: unquoteAux rest
    | _, _ => '%' :: unquoteAux (h1 :: h2 :: rest)
  | c :: rest => c :: unquoteAux rest

/-- Model of `urllib.parse.unquote` on strings. -/
def unquote (s : String) : String := ⟨unquoteAux s.data⟩

/-- The leftmost match of the regex `url=([^&]+)` (`re.search` in
`extract_text_from_url`): at the first position where `url=` is followed by
at least one non-`&` character, capture the maximal run of non-`&`
characters. -/
def urlParamCaptureAux : List Char → Option (List Char)
  | [] => none
  | c :: rest =>
    let cap := ((c :: rest).drop 4).takeWhile (fun x => x ≠ '&')
    if "url=".data.isPrefixOf (c :: rest) && !cap.isEmpty then some cap
    else urlParamCaptureAux rest

/-- String version of `urlParamCaptureAux`. -/
def urlParamCapture (url : String) : Option String :=
  (urlParamCaptureAux url.data).map (fun l => ⟨l⟩)

/-- A Google document id character (the class `[a-zA-Z0-9-_]`). -/
def isDocIdChar (c : Char) : Bool :=
  c.isAlphanum || c = '-' || c = '_'

/-- The leftmost match of the regex `/d/([a-zA-Z0-9-_]+)` used to pull a
document id out of a Google-Docs URL. -/
def docIdCaptureAux : List Char → Option (List Char)
  | [] => none
  | c :: rest =>
    let cap := ((c :: rest).drop 3).takeWhile isDocIdChar
    if "/d/".data.isPrefixOf (c :: rest) && !cap.isEmpty then some cap
    else docIdCaptureAux rest

/-- String version of `docIdCaptureAux`. -/
def docIdCapture (url : String) : Option String :=
  (docIdCaptureAux url.data).map (fun l => ⟨l⟩)

/-- The extension-dispatch tail of `extract_text_from_url`: `.docx` and
docx-export URLs go to the DOCX reader, `.pdf` and pdf-export URLs to the
PDF reader, anything else yields `""` (unsupported format).  `readPdf` and
`readDocx` are oracles for `read_pdf_from_url` / `read_docx_from_url`,
which catch their own errors and return `""` on failure. -/
def readByExtension (readPdf readDocx : String → String) (url : String) : String :=
  if endsWithStr ".docx" (toLowerStr url) || containsSub "export?format=docx" (toLowerStr url) then
    readDocx url
  else if endsWithStr ".pdf" (toLowerStr url) || containsSub "export?format=pdf" (toLowerStr url) then
    readPdf url
  else ""

/-- The Google-Docs branch of `extract_text_from_url`: a
`docs.google.com` URL containing `/edit` or `/view` is rewritten via its
document id to a PDF export URL; a non-empty fetch result is returned,
otherwise control falls through to the extension dispatch. -/
def googleDocsExport (readPdf readDocx : String → String) (url : String) : String :=
  if containsSub "docs.google.com" url && (containsSub "/edit" url || containsSub "/view" url) then
    match docIdCapture url with
    | some docId =>
      let text := readPdf ("https://docs.google.com/document/d/" ++ docId ++ "/export?format=pdf")
      if text ≠ "" then text else readByExtension readPdf readDocx url
    | none => readByExtension readPdf readDocx url
  else readByExtension readPdf readDocx url

/- Support lemmas needed to justify the termination of
`extract_text_from_url` (its recursion on the decoded `url=` parameter). -/

theorem prefixOf_length_le : ∀ (l1 l2 : List Char),
    l1.isPrefixOf l2 = true → l1.length ≤ l2.length := by
  intro l1
  induction l1 with
  | nil => intro l2 _; simp
  | cons a as ih =>
    intro l2 h
    cases l2 with
    | nil => simp [List.isPrefixOf] at h
    | cons b bs =>
      simp only [List.isPrefixOf, Bool.and_eq_true] at h
      have := ih bs h.2
      simp only [List.length_cons]
      omega

theorem unquoteAux_length_le : ∀ l : List Char, (unquoteAux l).length ≤ l.length := by
  intro l
  generalize hn : l.length = n
  induction n using Nat.strong_induction_on generalizing l with
  | _ n ih =>
    subst hn
    unfold unquoteAux
    split
    · simp
    · rename_i h1 h2 rest
      split
      · have := ih rest.length (by simp only [List.length_cons]; omega) rest rfl
        simp only [List.length_cons]
        omega
      · have := ih (h1 :: h2 :: rest).length (by simp only [List.length_cons]; omega)
          (h1 :: h2 :: rest) rfl
        simp only [List.length_cons] at this ⊢
        omega
    · rename_i c rest _
      have := ih rest.length (by simp only [List.length_cons]; omega) rest rfl
      simp only [List.length_cons]
      omega

theorem unquote_length_le (s : String) : (unquote s).length ≤ s.length :=
  unquoteAux_length_le s.data

theorem urlParamCaptureAux_length : ∀ l cap,
    urlParamCaptureAux l = some cap → cap.length + 4 ≤ l.length := by
  intro l
  induction l with
  | nil => intro cap h; simp [urlParamCaptureAux] at h
  | cons c rest ih =>
    intro cap h
    simp only [urlParamCaptureAux] at h
    split at h
    · rename_i hcond
      simp only [Bool.and_eq_true] at hcond
      have hpre : ("url=".data).length ≤ (c :: rest).length := prefixOf_length_le _ _ hcond.1
      have hdl : ("url=".data).length = 4 := rfl
      cases h
      have h1 : (((c :: rest).drop 4).takeWhile (fun x => x ≠ '&')).length ≤
          ((c :: rest).drop 4).length :=
        (List.takeWhile_sublist _).length_le
      simp only [List.length_drop] at h1
      omega
    · have := ih cap h
      simp only [List.length_cons]
      omega

theorem urlParamCapture_length {url cap : String} (h : urlParamCapture url = some cap) :
    cap.length + 4 ≤ url.length := by
  unfold urlParamCapture at h
  cases hc : urlParamCaptureAux url.data with
  | none => rw [hc] at h; exact Option.noConfusion h
  | some l =>
    rw [hc] at h
    have hcap : (⟨l⟩ : String) = cap := Option.some.inj h
    have h2 := urlParamCaptureAux_length url.data l hc
    have hlen : cap.length = l.length := by rw [← hcap]; rfl
    have hurl : url.length = url.data.length := rfl
    omega

/-- `extract_text_from_url` (resume_extractor.py): a `gview` wrapper URL is
unwrapped by decoding its `url=` parameter and recursing; otherwise
Google-Docs URLs are exported as PDF, and plain URLs are dispatched on
their extension.  The recursion terminates because the decoded parameter
is strictly shorter than the wrapper URL (see `urlParamCapture_length` and
`unquote_length_le`); in Python, a fetch/parse failure at any point is
caught and the function returns `""`, so the oracles here are total. -/
def extract_text_from_url (readPdf readDocx : String → String) (url : String) : String :=
  if containsSub "docs.google.com/gview" url then
    match h : urlParamCapture url with
    | some cap => extract_text_from_url readPdf readDocx (unquote cap)
    | none => googleDocsExport readPdf readDocx url
  else googleDocsExport readPdf readDocx url
termination_by url.length
decreasing_by
  have h1 := urlParamCapture_length h
  have h2 := unquote_length_le cap
  omega

theorem extract_text_from_url_unfold (readPdf readDocx : String → String) (url : String) :
    extract_text_from_url readPdf readDocx url =
      if containsSub "docs.google.com/gview" url then
        match urlParamCapture url with
        | some cap => extract_text_from_url readPdf readDocx (unquote cap)
        | none => googleDocsExport readPdf readDocx url
      else googleDocsExport readPdf readDocx url := by
  rw [extract_text_from_url.eq_def]
  split
  · cases urlParamCapture url <;> rfl
  · rfl

/-- The all-empty field map `extract_resume_info` returns on any failure. -/
def emptyResumeInfo : List (String × Json) :=
  [("name", .str ""), ("email", .str ""), ("contact_number", .str ""),
   ("linkedin_url", .str ""), ("skills", .str ""), ("position", .str ""),
   ("total_experience", .str "")]

/-- `extract_resume_info` (resume_extractor.py): extract text from the URL
(`extractText` is the — total — text extraction), feed the first 4000
characters to the LLM extraction call (`llmJson` is the oracle for the
chat-completion call combined with `json.loads` of its content; `.error`
models any exception on that path, including a missing API key), and
normalise the seven fields with `.get(k, "")`.  Every failure path is
caught and yields `emptyResumeInfo`. -/
def extract_resume_info (extractText : String → String)
    (llmJson : String → Except String Json) (url : String) : List (String × Json) :=
  let text := extractText url
  if text = "" then emptyResumeInfo
  else
    match llmJson (takeStr text 4000) with
    | .error _ => emptyResumeInfo
    | .ok result =>
      match result with
      | .obj kvs =>
        [("name", jGetD kvs "name" (.str "")),
         ("email", jGetD kvs "email" (.str "")),
         ("contact_number", jGetD kvs "contact_number" (.str "")),
         ("linkedin_url", jGetD kvs "linkedin_url" (.str "")),
         ("skills", jGetD kvs "skills" (.str "")),
         ("position", jGetD kvs "position" (.str "")),
         ("total_experience", jGetD kvs "total_experience" (.str ""))]
      | _ => emptyResumeInfo

/-! ## resume_service.py -/

/-- One match returned by the vector-index query: an id (resume filename),
a similarity score (passed through untouched), and a metadata dict. -/
structure PineMatch where
  id : String
  score : Json
  metadata : List (String × Json)

/-- The per-match candidate assembly of `search_candidates`
(resume_service.py): read the metadata fields, and when a URL is present
but some of the five backfillable fields are missing, call the extraction
collaborator and fill each missing field with `field or extracted[field]`. -/
def buildCandidate (extractInfo : String → List (String × Json)) (m : PineMatch) :
    List (String × Json) :=
  let metadata := m.metadata
  let url := jGetD metadata "url" (.str "")
  let view_url := jGetD metadata "view_url" (.str "")
  let text_length := jGetD metadata "text_length" (.num 0)
  let skills0 := jGetD metadata "skills" (.str "")
  let linkedin0 := jGetD metadata "linkedin_url" (.str "")
  let email0 := jGetD metadata "email" (.str "")
  let contact0 := jGetD metadata "contact_number" (.str "")
  let position0 := jGetD metadata "position" (.str "")
  let fields :=
    if jTruthy url &&
        !(jTruthy skills0 && jTruthy linkedin0 && jTruthy email0 &&
          jTruthy contact0 && jTruthy position0) then
      let ex := extractInfo (jStr url)
      (jOr skills0 (jGetD ex "skills" (.str "")),
       jOr linkedin0 (jGetD ex "linkedin_url" (.str "")),
       jOr email0 (jGetD ex "email" (.str "")),
       jOr contact0 (jGetD ex "contact_number" (.str "")),
       jOr position0 (jGetD ex "position" (.str "")))
    else (skills0, linkedin0, email0, contact0, position0)
  [("filename", .str m.id),
   ("score", m.score),
   ("url", url),
   ("view_url", view_url),
   ("text_length", text_length),
   ("skills", fields.1),
   ("linkedin_url", fields.2.1),
   ("email", fields.2.2.1),
   ("contact_number", fields.2.2.2.1),
   ("position", fields.2.2.2.2)]

/-- The candidate-assembly loop of `search_candidates` over the matches the
vector index returned (embedding creation and the index query themselves
are external calls that precede this loop and, on failure, raise). -/
def search_candidates (extractInfo : String → List (String × Json))
    (ms : List PineMatch) : List (List (String × Json)) :=
  ms.map (buildCandidate extractInfo)

/-! ## ats_scorer.py -/

/-- Case-insensitive prefix test: does `cs` start with (lower-case) `pat`? -/
def ciStarts (pat : String) (cs : List Char) : Bool :=
  (cs.take pat.data.length).map Char.toLower == pat.data

/-- The suffix of `cs` after the first case-insensitive occurrence of
`pat`, if any. -/
def findCiSub (pat : String) : List Char → Option (List Char)
  | [] => if pat.data.isEmpty then some [] else none
  | c :: rest =>
    if ciStarts pat (c :: rest) then some ((c :: rest).drop pat.data.length)
    else findCiSub pat rest

/-- The first maximal digit run in `cs`, as a number, if any. -/
def firstDigits : List Char → Option Nat
  | [] => none
  | c :: rest =>
    if c.isDigit then some (digitsToNat (c :: rest.takeWhile Char.isDigit))
    else firstDigits rest

/-- After an `overall`/`total`/`final` keyword match: the remainder of the
regex `.*?score.*?(\d+)` must match within the current line (`.` does not
cross newlines), so look for `score` (case-insensitively) in the rest of
the line and then the first digit run after it.  The lazy quantifiers make
the engine take the first `score` occurrence and the first digit run after
it; if no digit follows the first `score` occurrence within the line, no
later occurrence can have one either (digits after a later `score` also
lie after the first), so the whole attempt at this start position fails. -/
def scoreNumInLine (cs : List Char) : Option Nat :=
  match findCiSub "score" (cs.takeWhile (fun x => x ≠ '\n')) with
  | some afterScore => firstDigits afterScore
  | none => none

/-- The leftmost match of `re.search(r'(?:overall|total|final).*?score.*?(\d+)',
text, re.IGNORECASE)` in `_create_structured_response_from_text`: scan the
text left to right for one of the three keywords, and at each keyword
position try to complete the match within the line. -/
def scanScoreNum : List Char → Option Nat
  | [] => none
  | c :: rest =>
    match (if ciStarts "overall" (c :: rest) then scoreNumInLine ((c :: rest).drop 7)
           else if ciStarts "total" (c :: rest) then scoreNumInLine ((c :: rest).drop 5)
           else if ciStarts "final" (c :: rest) then scoreNumInLine ((c :: rest).drop 5)
           else none) with
    | some n => some n
    | none => scanScoreNum rest

/-- The `overall_score` of the structured-fallback path: the captured
number of the score regex, or 75 when the regex does not match. -/
def extractOverallScore (text : String) : Int :=
  match scanScoreNum text.data with
  | some n => (n : Int)
  | none => 75

/-- `_create_structured_response_from_text` (ats_scorer.py): the fixed
placeholder result built when the LLM response is not usable JSON. -/
def create_structured_response_from_text (response_text : String) : List (String × Json) :=
  [("overall_score", .num (extractOverallScore response_text)),
   ("category_scores", .obj [
     ("tech_stack_consistency", .obj [("score", .num 15),
       ("feedback", .str "Analysis based on text review"), ("red_flags", .arr [])]),
     ("linkedin_authenticity", .obj [("score", .num 12),
       ("feedback", .str "Analysis based on text review"), ("red_flags", .arr [])]),
     ("project_depth", .obj [("score", .num 15),
       ("feedback", .str "Analysis based on text review"), ("red_flags", .arr [])]),
     ("format_quality", .obj [("score", .num 8),
       ("feedback", .str "Analysis based on text review"), ("red_flags", .arr [])]),
     ("content_authenticity", .obj [("score", .num 11),
       ("feedback", .str "Analysis based on text review"), ("red_flags", .arr [])]),
     ("timeline_coherence", .obj [("score", .num 8),
       ("feedback", .str "Analysis based on text review"), ("red_flags", .arr [])]),
     ("education_validation", .obj [("score", .num 8),
       ("feedback", .str "Analysis based on text review"), ("red_flags", .arr [])])]),
   ("summary", .str (if response_text.length > 500
     then takeStr response_text 500 ++ "..." else response_text)),
   ("recommendations", .arr [.str "Review detailed feedback",
     .str "Consider professional formatting", .str "Enhance project descriptions"]),
   ("risk_level", .str "MEDIUM"),
   ("confidence_score", .num 70),
   ("parsing_note", .str "Response was parsed from unstructured text due to JSON parsing issues")]

/-- The seven all-zero category entries of `_create_fallback_response`. -/
def fallback_category_scores : List (String × Json) :=
  [("tech_stack_consistency", .obj [("score", .num 0),
     ("feedback", .str "Unable to analyze"), ("red_flags", .arr [])]),
   ("linkedin_authenticity", .obj [("score", .num 0),
     ("feedback", .str "Unable to analyze"), ("red_flags", .arr [])]),
   ("project_depth", .obj [("score", .num 0),
     ("feedback", .str "Unable to analyze"), ("red_flags", .arr [])]),
   ("format_quality", .obj [("score", .num 0),
     ("feedback", .str "Unable to analyze"), ("red_flags", .arr [])]),
   ("content_authenticity", .obj [("score", .num 0),
     ("feedback", .str "Unable to analyze"), ("red_flags", .arr [])]),
   ("timeline_coherence", .obj [("score", .num 0),
     ("feedback", .str "Unable to analyze"), ("red_flags", .arr [])]),
   ("education_validation", .obj [("score", .num 0),
     ("feedback", .str "Unable to analyze"), ("red_flags", .arr [])])]

/-- `_create_fallback_response` (ats_scorer.py): the zero-score error
object returned when the LLM call raises; `ts` models `datetime.now()`. -/
def create_fallback_response (error_message ts : String) : List (String × Json) :=
  [("overall_score", .num 0),
   ("category_scores", .obj fallback_category_scores),
   ("summary", .str ("ATS scoring failed due to technical error: " ++ error_message)),
   ("recommendations", .arr [.str "Please try again",
     .str "Ensure resume URL is accessible", .str "Check OpenAI API configuration"]),
   ("risk_level", .str "UNKNOWN"),
   ("confidence_score", .num 0),
   ("error", .str error_message),
   ("timestamp", .str ts)]

/-- Python `s.find(c)`: index of the first occurrence, or -1. -/
def pyFind (c : Char) (s : String) : Int :=
  match s.data.findIdx? (fun x => x = c) with
  | some i => (i : Int)
  | none => -1

/-- Python `s.rfind(c)`: index of the last occurrence, or -1. -/
def pyRFind (c : Char) (s : String) : Int :=
  match s.data.reverse.findIdx? (fun x => x = c) with
  | some i => ((s.data.length : Int)) - 1 - (i : Int)
  | none => -1

/-- Python slicing `s[i:j]` for the non-negative indices this code uses. -/
def pySlice (s : String) (i j : Int) : String :=
  ⟨(s.data.take j.toNat).drop i.toNat⟩

/-- The brace-extraction step of `_parse_openai_response`:
`json_start = text.find('{')`, `json_end = text.rfind('}') + 1`, and the
slice `text[json_start:json_end]` when `json_start != -1 and
json_end != -1` (the second test never fails, since `rfind + 1 ≥ 0`). -/
def jsonSlice (text : String) : Option String :=
  let json_start := pyFind '{' text
  let json_end := pyRFind '}' text + 1
  if json_start ≠ -1 ∧ json_end ≠ -1 then some (pySlice text json_start json_end)
  else none

/-- The successful path of `_parse_openai_response`: the brace slice
exists, `json.loads` accepts it, and the parsed object has both
`overall_score` and `category_scores`.  Any other outcome (no `{` in the
text, a `json.JSONDecodeError`, or missing keys) falls through to the
structured-fallback construction. -/
def jsonParseSucceeds (text : String) : Option (List (String × Json)) :=
  match jsonSlice text with
  | none => none
  | some json_str =>
    match jsonLoads json_str with
    | some (.obj kvs) =>
      if (kvs.lookup "overall_score").isSome && (kvs.lookup "category_scores").isSome
      then some kvs else none
    | _ => none

/-- `_parse_openai_response` (ats_scorer.py). -/
def parse_openai_response (response_text : String) : List (String × Json) :=
  match jsonParseSucceeds response_text with
  | some parsed_data => parsed_data
  | none => create_structured_response_from_text response_text

/-- `calculate_ats_score` (ats_scorer.py), over the outcome of the LLM
responses call (`.ok` carries `response.output_text`, `.error` the message
of the exception raised by the client or the network); `ts` models
`datetime.now().isoformat()`.  On success the parsed result gets its
`timestamp` key set; on any exception the zero-score fallback object is
returned — never a missing result. -/
def calculate_ats_score (llmOutcome : Except String String) (ts : String) :
    List (String × Json) :=
  match llmOutcome with
  | .ok output_text => dictSet (parse_openai_response output_text) "timestamp" (.str ts)
  | .error e => create_fallback_response e ts

/-! ## Controllers (resume_controller.py, ats_controller.py) -/

/-- A FastAPI `HTTPException`, as raised by the controllers. -/
structure HTTPError where
  status : Nat
  detail : String

/-- The JSON body of a search request; `none` models an absent field
(`request.get` then returns the default: `""` for `JD`, `10` for `count`). -/
structure SearchRequest where
  JD : Option String
  count : Option Int

/-- The JSON body of an ATS-score request. -/
structure ATSRequest where
  resume_url : Option String
  job_description : Option String

/-- `search_resumes_controller` (resume_controller.py), over an oracle
`search` for the `search_candidates` collaborator (`.error` models an
exception from the embedding call or vector query, which the controller
turns into a 500).  Validation happens before `search` is consulted. -/
def search_resumes_controller (search : String → Int → Except String (List Json))
    (req : SearchRequest) : Except HTTPError (List (String × Json)) :=
  let JD := req.JD.getD ""
  let count := req.count.getD 10
  if JD = "" ∨ JD.length < 10 then
    .error ⟨400, "JD must be at least 10 characters"⟩
  else if count < 1 ∨ count > 100 then
    .error ⟨400, "count must be between 1 and 100"⟩
  else
    match search JD count with
    | .error e => .error ⟨500, "Internal server error: " ++ e⟩
    | .ok candidates_data =>
      .ok [("success", .bool true),
           ("message", .str ("Found " ++ toString candidates_data.length ++
             " matching candidates")),
           ("candidates", .arr candidates_data),
           ("total_found", .num (candidates_data.length : Int)),
           ("job_description", .str JD)]

/-- `calculate_ats_score_controller` (ats_controller.py), over an oracle
`extract` for `extract_text_from_url` (total: that function catches its
own errors and returns `""`) and an oracle `llm` for the LLM scoring call
on (resume text, job description).  Validation and the extracted-text
length check happen before the scorer runs. -/
def calculate_ats_score_controller (extract : String → String)
    (llm : String → String → Except String String) (ts : String)
    (req : ATSRequest) : Except HTTPError (List (String × Json)) :=
  let resume_url := req.resume_url.getD ""
  let job_description := req.job_description.getD ""
  if resume_url = "" then
    .error ⟨400, "resume_url is required"⟩
  else if job_description = "" ∨ job_description.length < 10 then
    .error ⟨400, "job_description must be at least 10 characters"⟩
  else
    let resume_text := extract resume_url
    if resume_text = "" ∨ (pyStrip resume_text).length < 50 then
      .error ⟨400, "Unable to extract sufficient text from resume URL. Please ensure the URL is accessible and contains a valid resume."⟩
    else
      .ok (dictSet (calculate_ats_score (llm resume_text job_description) ts)
        "success" (.bool true))

/-! ## Spec-side definition used to compare claim wording with the code -/

/-- Modelled from the spec: the claim that the fallback `overall_score` is
"the integer parsed from any `score: N` pattern found anywhere in the
text" — i.e. the first number following the first (case-insensitive)
occurrence of `score`, with no requirement of a preceding
`overall`/`total`/`final` keyword and no line restriction. -/
def specScoreAnywhere (text : String) : Option Nat :=
  match findCiSub "score" text.data with
  | some rest => firstDigits rest
  | none => none

/-! ## Claim theorems -/

/-- C1: if the LLM scoring call raises, `calculate_ats_score` returns the
complete zero-score fallback object: `overall_score = 0`,
`risk_level = "UNKNOWN"`, an `error` field carrying the exception's
message text, and every one of the seven category sub-scores equal to 0
(the result equals `create_fallback_response e ts`, so it is never a
missing result). -/
theorem C1_llm_exception_zero_fallback (e ts : String) :
    (calculate_ats_score (Except.error e) ts).lookup "overall_score" = some (.num 0) ∧
    (calculate_ats_score (Except.error e) ts).lookup "risk_level" = some (.str "UNKNOWN") ∧
    (calculate_ats_score (Except.error e) ts).lookup "error" = some (.str e) ∧
    (calculate_ats_score (Except.error e) ts).lookup "category_scores" =
      some (.obj fallback_category_scores) ∧
    ∀ kv ∈ fallback_category_scores, jGet kv.2 "score" = some (.num 0) := by
  refine ⟨rfl, rfl, rfl, rfl, ?_⟩
  intro kv hkv
  fin_cases hkv <;> rfl

/-- C1 witness: the theorem instantiated at a concrete exception message
and timestamp. -/
theorem C1_llm_exception_zero_fallback_witness :
    (calculate_ats_score (Except.error "Connection error") "2024-01-01T00:00:00").lookup
      "overall_score" = some (.num 0) ∧
    (calculate_ats_score (Except.error "Connection error") "2024-01-01T00:00:00").lookup
      "risk_level" = some (.str "UNKNOWN") ∧
    (calculate_ats_score (Except.error "Connection error") "2024-01-01T00:00:00").lookup
      "error" = some (.str "Connection error") ∧
    (calculate_ats_score (Except.error "Connection error") "2024-01-01T00:00:00").lookup
      "category_scores" = some (.obj fallback_category_scores) ∧
    ∀ kv ∈ fallback_category_scores, jGet kv.2 "score" = some (.num 0) :=
  C1_llm_exception_zero_fallback "Connection error" "2024-01-01T00:00:00"

/-- C2 counterexample: the text `"score: 42"` cannot be parsed as JSON and
contains a `score: N` pattern with `N = 42`, yet the code returns
`overall_score = 75`: the fallback regex requires an
`overall`/`total`/`final` keyword before `score`, so the claim's "any
`score: N` pattern found anywhere in the text" is wrong. -/
theorem C2_counterexample :
    jsonParseSucceeds "score: 42" = none ∧
    specScoreAnywhere "score: 42" = some 42 ∧
    (parse_openai_response "score: 42").lookup "overall_score" = some (Json.num 75) ∧
    Json.num 75 ≠ Json.num 42 :=
  ⟨rfl, rfl, rfl, fun h => absurd (Json.num.inj h) (by decide)⟩

/-- C2 (amended): for every LLM response text that cannot be parsed as a
JSON object containing both `overall_score` and `category_scores`, the
scoring collaborator returns the structured fallback, whose
`overall_score` is the integer captured by the case-insensitive pattern
`(overall|total|final) … score … N` within a single line (leftmost match),
defaulting to 75 when no such pattern is found, and whose `parsing_note`
field is present. -/
theorem C2_amended_structured_fallback (text : String)
    (h : jsonParseSucceeds text = none) :
    parse_openai_response text = create_structured_response_from_text text ∧
    (parse_openai_response text).lookup "overall_score" =
      some (.num (extractOverallScore text)) ∧
    (parse_openai_response text).lookup "parsing_note" =
      some (.str "Response was parsed from unstructured text due to JSON parsing issues") := by
  have h1 : parse_openai_response text = create_structured_response_from_text text := by
    unfold parse_openai_response
    rw [h]
  refine ⟨h1, ?_, ?_⟩
  · rw [h1]; rfl
  · rw [h1]; rfl

/-- C2 witness: on the unparseable text `"Total score: 88"` the fallback
extracts 88 and carries the parsing note. -/
theorem C2_amended_structured_fallback_witness :
    jsonParseSucceeds "Total score: 88" = none ∧
    (parse_openai_response "Total score: 88").lookup "overall_score" = some (.num 88) ∧
    (parse_openai_response "Total score: 88").lookup "parsing_note" =
      some (.str "Response was parsed from unstructured text due to JSON parsing issues") := by
  have h := C2_amended_structured_fallback "Total score: 88" (by rfl)
  exact ⟨rfl, h.2.1.trans (by rfl), h.2.2⟩

/-- C3 counterexample: a response text that contains (as a substring) a
valid JSON object with both required keys, but whose first-`{`-to-last-`}`
slice is not valid JSON; the code falls back to the structured response
(with a `parsing_note`), not the contained object plus timestamp, so
"for every text containing a valid JSON object …" is wrong. -/
theorem C3_counterexample :
    containsSub "\x7b\"overall_score\": 1, \"category_scores\": \x7b\x7d\x7d"
      "\x7bx \x7b\"overall_score\": 1, \"category_scores\": \x7b\x7d\x7d" = true ∧
    jsonLoads "\x7b\"overall_score\": 1, \"category_scores\": \x7b\x7d\x7d" =
      some (.obj [("overall_score", .num 1), ("category_scores", .obj [])]) ∧
    calculate_ats_score
        (Except.ok "\x7bx \x7b\"overall_score\": 1, \"category_scores\": \x7b\x7d\x7d") "T" ≠
      dictSet [("overall_score", .num 1), ("category_scores", .obj [])]
        "timestamp" (.str "T") := by
  refine ⟨rfl, rfl, ?_⟩
  intro heq
  have h1 : (calculate_ats_score
      (Except.ok "\x7bx \x7b\"overall_score\": 1, \"category_scores\": \x7b\x7d\x7d") "T").lookup
      "parsing_note" =
      some (.str "Response was parsed from unstructured text due to JSON parsing issues") := rfl
  rw [heq] at h1
  have h2 : (dictSet [("overall_score", Json.num 1), ("category_scores", Json.obj [])]
      "timestamp" (.str "T")).lookup "parsing_note" = none := rfl
  rw [h2] at h1
  exact Option.noConfusion h1

/-- C3 (amended): for every LLM response text whose slice from the first
`{` through the last `}` parses as a JSON object containing both
`overall_score` and `category_scores`, the scoring collaborator returns
exactly that parsed object, with only its `timestamp` key set (added, or
overwritten when already present). -/
theorem C3_amended_parsed_object_plus_timestamp (text ts : String)
    (kvs : List (String × Json)) (h : jsonParseSucceeds text = some kvs) :
    calculate_ats_score (Except.ok text) ts = dictSet kvs "timestamp" (.str ts) := by
  show dictSet (parse_openai_response text) "timestamp" (.str ts) =
    dictSet kvs "timestamp" (.str ts)
  unfold parse_openai_response
  rw [h]

/-- C3 witness: a well-formed response evaluates to the parsed object with
the timestamp appended. -/
theorem C3_amended_parsed_object_plus_timestamp_witness :
    calculate_ats_score
        (Except.ok "\x7b\"overall_score\": 5, \"category_scores\": \x7b\x7d\x7d") "T" =
      dictSet [("overall_score", .num 5), ("category_scores", .obj [])]
        "timestamp" (.str "T") :=
  C3_amended_parsed_object_plus_timestamp
    "\x7b\"overall_score\": 5, \"category_scores\": \x7b\x7d\x7d" "T"
    [("overall_score", .num 5), ("category_scores", .obj [])] (by rfl)

/-- C4: when the JD is valid (≥ 10 characters) but `count` lies outside
[1, 100], the search controller raises HTTP 400 before the
candidate-search collaborator runs: the result is the same 400 error for
every collaborator `search`, so no embedding, vector-index or
document-fetch call is made. -/
theorem C4_count_range_validated_before_search
    (search : String → Int → Except String (List Json)) (req : SearchRequest)
    (h1 : 10 ≤ (req.JD.getD "").length)
    (h2 : req.count.getD 10 < 1 ∨ req.count.getD 10 > 100) :
    search_resumes_controller search req =
      .error ⟨400, "count must be between 1 and 100"⟩ := by
  have hJD : ¬(req.JD.getD "" = "" ∨ (req.JD.getD "").length < 10) := by
    intro hor
    rcases hor with he | hl
    · rw [he] at h1; exact absurd h1 (by decide)
    · omega
  simp only [search_resumes_controller]
  rw [if_neg hJD, if_pos h2]

/-- C4 witness: a concrete out-of-range count with a valid JD. -/
theorem C4_count_range_validated_before_search_witness :
    search_resumes_controller (fun _ _ => Except.ok []) ⟨some "abcdefghij", some 101⟩ =
      .error ⟨400, "count must be between 1 and 100"⟩ :=
  C4_count_range_validated_before_search (fun _ _ => Except.ok [])
    ⟨some "abcdefghij", some 101⟩ (by decide) (Or.inr (by decide))

/-- C5: a job description shorter than 10 characters (including empty or
absent) makes both endpoints return HTTP 400 — the search controller via
its `JD` field, and the ATS controller via its `job_description` field
(given a non-empty `resume_url`), in both cases before any collaborator
is consulted. -/
theorem C5_short_jd_both_endpoints_400 :
    (∀ (search : String → Int → Except String (List Json)) (req : SearchRequest),
        (req.JD.getD "").length < 10 →
        search_resumes_controller search req =
          .error ⟨400, "JD must be at least 10 characters"⟩) ∧
    (∀ (extract : String → String) (llm : String → String → Except String String)
        (ts : String) (req : ATSRequest),
        req.resume_url.getD "" ≠ "" →
        (req.job_description.getD "").length < 10 →
        calculate_ats_score_controller extract llm ts req =
          .error ⟨400, "job_description must be at least 10 characters"⟩) := by
  constructor
  · intro search req h
    simp only [search_resumes_controller]
    rw [if_pos (Or.inr h)]
  · intro extract llm ts req h1 h2
    simp only [calculate_ats_score_controller]
    rw [if_neg h1, if_pos (Or.inr h2)]

/-- C5 witness: concrete short job descriptions on both endpoints (an
absent `JD`, and a 5-character `job_description`). -/
theorem C5_short_jd_both_endpoints_400_witness :
    search_resumes_controller (fun _ _ => Except.ok []) ⟨none, some 10⟩ =
      .error ⟨400, "JD must be at least 10 characters"⟩ ∧
    calculate_ats_score_controller (fun _ => "") (fun _ _ => Except.error "E") "T"
        ⟨some "http://x/r.pdf", some "short"⟩ =
      .error ⟨400, "job_description must be at least 10 characters"⟩ :=
  ⟨C5_short_jd_both_endpoints_400.1 (fun _ _ => Except.ok []) ⟨none, some 10⟩ (by decide),
   C5_short_jd_both_endpoints_400.2 (fun _ => "") (fun _ _ => Except.error "E") "T"
     ⟨some "http://x/r.pdf", some "short"⟩ (by decide) (by decide)⟩

/-- C6: with a non-empty `resume_url` and a valid job description, if text
extraction yields `""` (every fetch/parse failure does) or any text whose
stripped length is under 50 characters, the ATS endpoint answers HTTP 400
about insufficient extracted text — not a 500. -/
theorem C6_insufficient_text_400 (extract : String → String)
    (llm : String → String → Except String String) (ts : String) (req : ATSRequest)
    (h1 : req.resume_url.getD "" ≠ "")
    (h2 : 10 ≤ (req.job_description.getD "").length)
    (h3 : (pyStrip (extract (req.resume_url.getD ""))).length < 50) :
    calculate_ats_score_controller extract llm ts req =
      .error ⟨400, "Unable to extract sufficient text from resume URL. Please ensure the URL is accessible and contains a valid resume."⟩ := by
  have hjd : ¬(req.job_description.getD "" = "" ∨
      (req.job_description.getD "").length < 10) := by
    intro hor
    rcases hor with he | hl
    · rw [he] at h2; exact absurd h2 (by decide)
    · omega
  simp only [calculate_ats_score_controller]
  rw [if_neg h1, if_neg hjd, if_pos (Or.inr h3)]

/-- C6 witness: a failing fetch (empty extraction result) on a concrete
request. -/
theorem C6_insufficient_text_400_witness :
    calculate_ats_score_controller (fun _ => "") (fun _ _ => Except.error "E") "T"
        ⟨some "http://x/gone.pdf", some "abcdefghij"⟩ =
      .error ⟨400, "Unable to extract sufficient text from resume URL. Please ensure the URL is accessible and contains a valid resume."⟩ :=
  C6_insufficient_text_400 (fun _ => "") (fun _ _ => Except.error "E") "T"
    ⟨some "http://x/gone.pdf", some "abcdefghij"⟩ (by decide) (by decide) (by decide)

/-- C7: structured-field extraction is best-effort: if text extraction
yields no text, or the LLM extraction call fails (any exception on that
path), `extract_resume_info` returns the all-empty seven-field map and —
being a total function — never propagates an exception.  Consequently, in
candidate search, a backfill whose extraction failed leaves the
candidate's five backfillable fields empty (when the index metadata also
lacks them) and the search still returns one candidate per match. -/
theorem C7_extraction_best_effort :
    (∀ (extractText : String → String) (llmJson : String → Except String Json)
        (url : String), extractText url = "" →
        extract_resume_info extractText llmJson url = emptyResumeInfo) ∧
    (∀ (extractText : String → String) (llmJson : String → Except String Json)
        (url e : String), llmJson (takeStr (extractText url) 4000) = .error e →
        extract_resume_info extractText llmJson url = emptyResumeInfo) ∧
    (∀ (extractInfo : String → List (String × Json)) (ms : List PineMatch),
        (search_candidates extractInfo ms).length = ms.length) ∧
    (∀ m : PineMatch,
        m.metadata.lookup "skills" = none →
        m.metadata.lookup "linkedin_url" = none →
        m.metadata.lookup "email" = none →
        m.metadata.lookup "contact_number" = none →
        m.metadata.lookup "position" = none →
        (buildCandidate (fun _ => emptyResumeInfo) m).lookup "skills" = some (.str "") ∧
        (buildCandidate (fun _ => emptyResumeInfo) m).lookup "linkedin_url" = some (.str "") ∧
        (buildCandidate (fun _ => emptyResumeInfo) m).lookup "email" = some (.str "") ∧
        (buildCandidate (fun _ => emptyResumeInfo) m).lookup "contact_number" =
          some (.str "") ∧
        (buildCandidate (fun _ => emptyResumeInfo) m).lookup "position" = some (.str "")) := by
  refine ⟨?_, ?_, ?_, ?_⟩
  · intro extractText llmJson url h
    simp only [extract_resume_info]
    rw [if_pos h]
  · intro extractText llmJson url e h
    simp only [extract_resume_info]
    by_cases htext : extractText url = ""
    · rw [if_pos htext]
    · rw [if_neg htext, h]
  · intro extractInfo ms
    simp [search_candidates]
  · intro m h1 h2 h3 h4 h5
    have e1 : jGetD m.metadata "skills" (.str "") = .str "" := by simp [jGetD, h1]
    have e2 : jGetD m.metadata "linkedin_url" (.str "") = .str "" := by simp [jGetD, h2]
    have e3 : jGetD m.metadata "email" (.str "") = .str "" := by simp [jGetD, h3]
    have e4 : jGetD m.metadata "contact_number" (.str "") = .str "" := by simp [jGetD, h4]
    have e5 : jGetD m.metadata "position" (.str "") = .str "" := by simp [jGetD, h5]
    simp only [buildCandidate, e1, e2, e3, e4, e5,
      show jTruthy (.str "") = false from rfl, Bool.false_and, Bool.and_false,
      Bool.not_false, Bool.and_true]
    by_cases hu : jTruthy (jGetD m.metadata "url" (.str ""))
    · rw [if_pos hu]
      exact ⟨rfl, rfl, rfl, rfl, rfl⟩
    · rw [if_neg hu]
      exact ⟨rfl, rfl, rfl, rfl, rfl⟩

/-- C7 witness: concrete failing extraction and a metadata-less match. -/
theorem C7_extraction_best_effort_witness :
    extract_resume_info (fun _ => "") (fun _ => Except.error "boom") "http://x/r.pdf" =
      emptyResumeInfo ∧
    extract_resume_info (fun _ => "some resume text") (fun _ => Except.error "boom")
      "http://x/r.pdf" = emptyResumeInfo ∧
    (search_candidates (fun _ => emptyResumeInfo) [⟨"a.pdf", .num 0, []⟩]).length = 1 ∧
    (buildCandidate (fun _ => emptyResumeInfo) ⟨"a.pdf", .num 0, []⟩).lookup "skills" =
      some (.str "") :=
  ⟨C7_extraction_best_effort.1 _ _ _ rfl,
   C7_extraction_best_effort.2.1 _ _ _ "boom" rfl,
   (C7_extraction_best_effort.2.2.1 (fun _ => emptyResumeInfo) [⟨"a.pdf", .num 0, []⟩]).trans rfl,
   (C7_extraction_best_effort.2.2.2 ⟨"a.pdf", .num 0, []⟩ rfl rfl rfl rfl rfl).1⟩

/-- C8: skills extraction returns a comma-joined selection of at most 15
keywords taken from the fixed `common_skills` list, each matched
case-insensitively as a substring of the text, in the order of the fixed
list; on a text containing exactly `Python`, `Docker` and `Kubernetes`
from that list, the result is exactly `"Python, Docker, Kubernetes"`. -/
theorem C8_skills_keyword_extraction :
    (∀ text : String, ∃ l : List String,
        l.Sublist common_skills ∧
        l.length ≤ 15 ∧
        (∀ s ∈ l, containsSub (toUpperStr s) (toUpperStr text) = true) ∧
        extract_skills text = joinStr ", " l) ∧
    extract_skills "Python, Docker, Kubernetes" = "Python, Docker, Kubernetes" := by
  constructor
  · intro text
    refine ⟨(common_skills.filter
        (fun skill => containsSub (toUpperStr skill) (toUpperStr text))).take 15,
      ?_, ?_, ?_, rfl⟩
    · exact (List.take_sublist _ _).trans (List.filter_sublist _)
    · rw [List.length_take]
      exact Nat.min_le_left _ _
    · intro s hs
      have hmem : s ∈ common_skills.filter
          (fun skill => containsSub (toUpperStr skill) (toUpperStr text)) :=
        List.mem_of_mem_take hs
      have hp := List.of_mem_filter hmem
      exact hp
  · rfl

/-- C8 witness: the general part of the theorem instantiated at the
concrete text of the claim. -/
theorem C8_skills_keyword_extraction_witness :
    ∃ l : List String,
      l.Sublist common_skills ∧
      l.length ≤ 15 ∧
      (∀ s ∈ l, containsSub (toUpperStr s) (toUpperStr "Python, Docker, Kubernetes") = true) ∧
      extract_skills "Python, Docker, Kubernetes" = joinStr ", " l :=
  C8_skills_keyword_extraction.1 "Python, Docker, Kubernetes"

/-- C9: a Google-Docs `gview` URL is unwrapped by decoding its `url=`
query parameter and re-entering `extract_text_from_url` on the decoded
URL; in particular the wrapper around `url=https%3A%2F%2Fexample.com%2Fr.pdf`
resolves to fetching `https://example.com/r.pdf` through the PDF reader. -/
theorem C9_gview_unwrap_and_recurse :
    (∀ rp rd : String → String,
        extract_text_from_url rp rd
          "https://docs.google.com/gview?url=https%3A%2F%2Fexample.com%2Fr.pdf&embedded=true" =
          rp "https://example.com/r.pdf") ∧
    (∀ (rp rd : String → String) (url cap : String),
        containsSub "docs.google.com/gview" url = true →
        urlParamCapture url = some cap →
        extract_text_from_url rp rd url = extract_text_from_url rp rd (unquote cap)) := by
  constructor
  · intro rp rd
    have step1 : extract_text_from_url rp rd
        "https://docs.google.com/gview?url=https%3A%2F%2Fexample.com%2Fr.pdf&embedded=true" =
        extract_text_from_url rp rd "https://example.com/r.pdf" := by
      rw [extract_text_from_url_unfold]
      rfl
    have step2 : extract_text_from_url rp rd "https://example.com/r.pdf" =
        rp "https://example.com/r.pdf" := by
      rw [extract_text_from_url_unfold]
      rfl
    rw [step1, step2]
  · intro rp rd url cap hc hcap
    rw [extract_text_from_url_unfold, if_pos hc, hcap]

/-- C9 witness: the unwrap equation instantiated at the claim's URL and
concrete readers. -/
theorem C9_gview_unwrap_and_recurse_witness :
    extract_text_from_url (fun _ => "PDF") (fun _ => "DOCX")
      "https://docs.google.com/gview?url=https%3A%2F%2Fexample.com%2Fr.pdf&embedded=true" =
    extract_text_from_url (fun _ => "PDF") (fun _ => "DOCX")
      (unquote "https%3A%2F%2Fexample.com%2Fr.pdf") :=
  C9_gview_unwrap_and_recurse.2 (fun _ => "PDF") (fun _ => "DOCX") _
    "https%3A%2F%2Fexample.com%2Fr.pdf" (by rfl) (by rfl)

/-- C10: the `gview` self-recursion of `extract_text_from_url` is
well-founded on string length: percent-decoding never lengthens a string,
and a captured `url=` parameter is at least 4 characters shorter than the
URL containing it, so the decoded recursion argument is strictly shorter
than the input (this is exactly the measure by which
`extract_text_from_url` is accepted as a total function). -/
theorem C10_gview_recursion_wellfounded :
    (∀ s : String, (unquote s).length ≤ s.length) ∧
    (∀ url cap : String, urlParamCapture url = some cap →
        cap.length + 4 ≤ url.length ∧ (unquote cap).length < url.length) := by
  constructor
  · exact unquote_length_le
  · intro url cap h
    have h1 := urlParamCapture_length h
    have h2 := unquote_length_le cap
    exact ⟨h1, by omega⟩

/-- C10 witness: the strict decrease at the claim's concrete `gview` URL. -/
theorem C10_gview_recursion_wellfounded_witness :
    ("https%3A%2F%2Fexample.com%2Fr.pdf" : String).length + 4 ≤
      ("https://docs.google.com/gview?url=https%3A%2F%2Fexample.com%2Fr.pdf&embedded=true" :
        String).length ∧
    (unquote "https%3A%2F%2Fexample.com%2Fr.pdf").length <
      ("https://docs.google.com/gview?url=https%3A%2F%2Fexample.com%2Fr.pdf&embedded=true" :
        String).length :=
  C10_gview_recursion_wellfounded.2
    "https://docs.google.com/gview?url=https%3A%2F%2Fexample.com%2Fr.pdf&embedded=true"
    "https%3A%2F%2Fexample.com%2Fr.pdf" (by rfl)
